import Mathlib

/-!
Verification of the cache-backed API fetch layer of a static download site.

Shallow embedding of:
  - src/lib/cache.ts   (persistent TTL cache: getCache / setCache)
  - src/lib/fetch.ts   (fetchWithRetry)
  - src/lib/liquidity.ts (accessors: fetchLiquidityData, fetchOffers,
      fetchProviderStats, fetchProviderDailyBounds, fetchDailyPriceStats,
      getProviderById, getProviderHistoricalBounds, formatPrice, btcToXmr)
  - src/lib/downloads.ts (fetchGitHubRelease, fetchAurPackageVersion)

Modelling conventions:
  - Times (Date.now()) are integers (milliseconds); JS number subtraction on
    timestamps is exact integer subtraction.
  - A thrown JS exception is `Except.error ()`; fallible operations return
    `Except Unit _`.
  - The remote endpoint is a `Transport`: for each request index it either
    throws (transport-level failure) or yields a `Response` with an HTTP
    status and a body whose JSON decode may itself fail.
  - The on-disk cache is a map from keys to persisted records; a record that
    fails to decode (corrupt JSON) is `Except.error ()`.
-/

namespace VisionNG

/-! ### Cache model (src/lib/cache.ts) -/

/-- Constant `CACHE_DURATION_MS = 10 * 60 * 1000` (10 minutes), from cache.ts. -/
def CACHE_DURATION_MS : ℤ := 10 * 60 * 1000

/-- Structure `CachedData<T> = { data: T, timestamp: number }` from cache.ts. -/
structure CachedData (α : Type) where
  data : α
  timestamp : ℤ

/-- A persisted cache record as read back from disk: `Except.error ()` models a
corrupt record whose `JSON.parse` fails. -/
abbrev Record (α : Type) := Except Unit (CachedData α)

/-- The cache root: one addressable record per key, or none. -/
abbrev Store (α : Type) := String → Option (Record α)

/-- A cold cache: no record for any key. -/
def emptyStore {α : Type} : Store α := fun _ => none

/-- Function `getCache<T>(key)` from cache.ts: absent file, a record whose decode
fails, or an entry with `now - timestamp >= CACHE_DURATION_MS` all yield
`null`; a fresh entry yields its data. -/
def getCache {α : Type} (st : Store α) (key : String) (now : ℤ) : Option α :=
  match st key with
  | none => none
  | some (Except.error _) => none
  | some (Except.ok cached) =>
      if now - cached.timestamp < CACHE_DURATION_MS then some cached.data
      else none

/-- Function `setCache<T>(key, data)` from cache.ts: persist `{data, timestamp: now}`
under `key`, overwriting in place. -/
def setCache {α : Type} (st : Store α) (key : String) (data : α) (now : ℤ) :
    Store α :=
  fun k => if k = key then some (Except.ok ⟨data, now⟩) else st k

/-! ### HTTP model and fetchWithRetry (src/lib/fetch.ts) -/

/-- A decoded HTTP response: the status code, and the result of
`response.json()` (which may itself throw, modelled by `Except.error ()`). -/
structure Response (α : Type) where
  status : ℕ
  body : Except Unit α

/-- JS `Response.ok`: status in the 2xx range. -/
def Response.isOk {α : Type} (r : Response α) : Bool :=
  decide (200 ≤ r.status) && decide (r.status ≤ 299)

/-- A remote endpoint under fixed responses: request number `i` (0-based)
either throws or yields a response. -/
abbrev Transport (α : Type) := ℕ → Except Unit (Response α)

/-- The body of `fetchWithRetry` from fetch.ts, entered at loop counter
`attempt`.  Mirrors:
```
for (let attempt = 1; attempt <= retries; attempt++) {
  const response = await fetch(url, options);
  if (response.ok) return response;
  if (attempt < retries && response.status >= 500) { backoff } else return response;
}
return fetch(url, options);
```
The second component counts the requests issued so far (request `i` of the
transport is the `i+1`-st request). A thrown fetch propagates. -/
def fetchWithRetryAux {α : Type} (t : Transport α) (retries : ℤ) (attempt : ℕ) :
    Except Unit (Response α) × ℕ :=
  if (attempt : ℤ) ≤ retries then
    match t (attempt - 1) with
    | Except.error e => (Except.error e, attempt)
    | Except.ok response =>
        if response.isOk then (Except.ok response, attempt)
        else if (attempt : ℤ) < retries ∧ 500 ≤ response.status then
          fetchWithRetryAux t retries (attempt + 1)
        else (Except.ok response, attempt)
  else
    match t (attempt - 1) with
    | Except.error e => (Except.error e, attempt)
    | Except.ok response => (Except.ok response, attempt)
termination_by (retries + 1 - (attempt : ℤ)).toNat
decreasing_by omega

/-- Function `fetchWithRetry(url, options, retries)`: run the loop from `attempt = 1`.
Returns the outcome together with the total number of requests issued. -/
def fetchWithRetry {α : Type} (t : Transport α) (retries : ℤ) :
    Except Unit (Response α) × ℕ :=
  fetchWithRetryAux t retries 1

/-! ### Typed payloads (src/lib/liquidity.ts) -/

/-- Record `Offer` from liquidity.ts. -/
structure Offer where
  peerId : String
  multiAddr : String
  price : ℤ
  minSwapAmount : ℤ
  maxSwapAmount : ℤ
  testnet : Bool
deriving DecidableEq

/-- Record `ProviderQuoteStats` from liquidity.ts. -/
structure ProviderQuoteStats where
  peer_id : String
  multi_address : String
  max_max_swap_amount : ℤ
  min_min_swap_amount : ℤ
  online_days : ℤ
  age_days : ℤ
  last_seen_ago_days : ℤ
deriving DecidableEq

/-- Record `ProviderDailySwapBounds` from liquidity.ts; `day` is `YYYY-MM-DD`. -/
structure ProviderDailySwapBounds where
  day : String
  peer_id : String
  daily_max_max_swap_amount : ℤ
  daily_min_min_swap_amount : ℤ
deriving DecidableEq

/-- Record `DailyPriceStats` from liquidity.ts. -/
structure DailyPriceStats where
  date : List ℤ
  lowest_price : ℤ
  highest_price : ℤ
  avg_price : ℤ
deriving DecidableEq

/-- Record `LiquidityDayData` from liquidity.ts. -/
structure LiquidityDayData where
  date : List ℤ
  totalLiquidityBtc : ℚ
deriving DecidableEq

def CACHE_KEY : String := "liquidity-daily"
def OFFERS_CACHE_KEY : String := "offers-list"
def PROVIDERS_CACHE_KEY : String := "provider-quote-stats"
def PROVIDER_BOUNDS_CACHE_KEY : String := "provider-daily-swap-bounds"
def PRICE_STATS_CACHE_KEY : String := "daily-price-stats"

/-! ### Remote data accessors (src/lib/liquidity.ts)

Each accessor takes the endpoint's transport `t` and the retry count
`retries` (fixed remote environment), the cache store for its key, and the
current time, and returns its result together with the updated store.  A JS
array is always truthy, so a cache hit on a (possibly empty) list is returned
unconditionally. -/

/-- Accessor `fetchLiquidityData()` from liquidity.ts lines 76-99. -/
def fetchLiquidityData (t : Transport (List LiquidityDayData)) (retries : ℤ)
    (st : Store (List LiquidityDayData)) (now : ℤ) :
    Option (List LiquidityDayData) × Store (List LiquidityDayData) :=
  match getCache st CACHE_KEY now with
  | some cached => (some cached, st)
  | none =>
    match (fetchWithRetry t retries).1 with
    | Except.error _ => (none, st)
    | Except.ok response =>
      if response.isOk then
        match response.body with
        | Except.error _ => (none, st)
        | Except.ok data => (some data, setCache st CACHE_KEY data now)
      else (none, st)

/-- Accessor `fetchOffers()` from liquidity.ts lines 223-247: filters out testnet
offers, caches and returns the mainnet ones. -/
def fetchOffers (t : Transport (List Offer)) (retries : ℤ)
    (st : Store (List Offer)) (now : ℤ) :
    Option (List Offer) × Store (List Offer) :=
  match getCache st OFFERS_CACHE_KEY now with
  | some cached => (some cached, st)
  | none =>
    match (fetchWithRetry t retries).1 with
    | Except.error _ => (none, st)
    | Except.ok response =>
      if response.isOk then
        match response.body with
        | Except.error _ => (none, st)
        | Except.ok data =>
            let mainnetOffers := data.filter (fun offer => !offer.testnet)
            (some mainnetOffers, setCache st OFFERS_CACHE_KEY mainnetOffers now)
      else (none, st)

/-- Accessor `fetchProviderStats()` from liquidity.ts lines 289-317: keeps providers
with more than 1 online day, caches and returns the filtered list. -/
def fetchProviderStats (t : Transport (List ProviderQuoteStats)) (retries : ℤ)
    (st : Store (List ProviderQuoteStats)) (now : ℤ) :
    Option (List ProviderQuoteStats) × Store (List ProviderQuoteStats) :=
  match getCache st PROVIDERS_CACHE_KEY now with
  | some cached => (some cached, st)
  | none =>
    match (fetchWithRetry t retries).1 with
    | Except.error _ => (none, st)
    | Except.ok response =>
      if response.isOk then
        match response.body with
        | Except.error _ => (none, st)
        | Except.ok data =>
            let filtered := data.filter (fun p => decide (1 < p.online_days))
            (some filtered, setCache st PROVIDERS_CACHE_KEY filtered now)
      else (none, st)

/-- Accessor `fetchProviderDailyBounds()` from liquidity.ts lines 323-349: no
filtering, caches and returns the decoded list. -/
def fetchProviderDailyBounds (t : Transport (List ProviderDailySwapBounds))
    (retries : ℤ) (st : Store (List ProviderDailySwapBounds)) (now : ℤ) :
    Option (List ProviderDailySwapBounds) × Store (List ProviderDailySwapBounds) :=
  match getCache st PROVIDER_BOUNDS_CACHE_KEY now with
  | some cached => (some cached, st)
  | none =>
    match (fetchWithRetry t retries).1 with
    | Except.error _ => (none, st)
    | Except.ok response =>
      if response.isOk then
        match response.body with
        | Except.error _ => (none, st)
        | Except.ok data => (some data, setCache st PROVIDER_BOUNDS_CACHE_KEY data now)
      else (none, st)

/-- Accessor `fetchDailyPriceStats()` from liquidity.ts lines 493-517: no filtering at
the accessor — the decoded list is cached and returned as-is. -/
def fetchDailyPriceStats (t : Transport (List DailyPriceStats)) (retries : ℤ)
    (st : Store (List DailyPriceStats)) (now : ℤ) :
    Option (List DailyPriceStats) × Store (List DailyPriceStats) :=
  match getCache st PRICE_STATS_CACHE_KEY now with
  | some cached => (some cached, st)
  | none =>
    match (fetchWithRetry t retries).1 with
    | Except.error _ => (none, st)
    | Except.ok response =>
      if response.isOk then
        match response.body with
        | Except.error _ => (none, st)
        | Except.ok data => (some data, setCache st PRICE_STATS_CACHE_KEY data now)
      else (none, st)

/-- The zero-price filter applied inside `generateBestPriceChart`
(liquidity.ts line 530): `priceData.filter(d => d.avg_price > 0)`. -/
def generateBestPriceChartValidData (priceData : List DailyPriceStats) :
    List DailyPriceStats :=
  priceData.filter (fun d => decide (0 < d.avg_price))

/-- Digit-concatenation key of a `YYYY-MM-DD` day string.  For valid ISO day
strings `new Date(day).getTime()` is ordered exactly as the number `YYYYMMDD`,
which this computes, so the sort comparator of
`getProviderHistoricalBounds` is modelled by comparing these keys. -/
def dateKey (s : String) : ℕ :=
  s.foldl (fun acc c => if c.isDigit then acc * 10 + (c.toNat - 48) else acc) 0

/-- Accessor `getProviderHistoricalBounds(peerId)` from liquidity.ts lines 366-374:
filter by `peer_id`, then sort ascending by `new Date(day).getTime()`
(stable sort, as JS `Array.prototype.sort`). -/
def getProviderHistoricalBounds (t : Transport (List ProviderDailySwapBounds))
    (retries : ℤ) (peerId : String)
    (st : Store (List ProviderDailySwapBounds)) (now : ℤ) :
    Option (List ProviderDailySwapBounds) × Store (List ProviderDailySwapBounds) :=
  match fetchProviderDailyBounds t retries st now with
  | (none, st1) => (none, st1)
  | (some bounds, st1) =>
      (some ((bounds.filter (fun b => b.peer_id == peerId)).mergeSort
        (fun a b => decide (dateKey a.day ≤ dateKey b.day))), st1)

/-- Accessor `getProviderById(peerId)` from liquidity.ts lines 354-360. -/
def getProviderById (t : Transport (List ProviderQuoteStats)) (retries : ℤ)
    (peerId : String) (st : Store (List ProviderQuoteStats)) (now : ℤ) :
    Option ProviderQuoteStats × Store (List ProviderQuoteStats) :=
  match fetchProviderStats t retries st now with
  | (none, st1) => (none, st1)
  | (some providers, st1) =>
      (providers.find? (fun p => p.peer_id == peerId), st1)

/-! ### Release and AUR accessors (src/lib/downloads.ts) -/

/-- Accessor `fetchGitHubRelease()` from downloads.ts lines 36-53.  The release payload
type is abstract (`any` in the source); a cached release object is truthy.
Unlike the liquidity accessors this uses a single plain `fetch` (no retry),
`throw`s a new `Error` on a non-ok status, and has no `try`/`catch`: a thrown
transport failure or decode failure propagates to the caller, modelled by an
`Except.error` result. -/
def fetchGitHubRelease {α : Type} (t1 : Except Unit (Response α))
    (st : Store α) (now : ℤ) : Except Unit α × Store α :=
  match getCache st "github-release-latest" now with
  | some release => (Except.ok release, st)
  | none =>
    match t1 with
    | Except.error e => (Except.error e, st)
    | Except.ok response =>
      if response.isOk then
        match response.body with
        | Except.error e => (Except.error e, st)
        | Except.ok release =>
            (Except.ok release, setCache st "github-release-latest" release now)
      else (Except.error (), st)

/-- The network path of `fetchAurPackageVersion` (downloads.ts lines 329-339):
a single plain `fetch` inside `try`/`catch`.  The decoded body is modelled as
`data.results?.[0]?.Version` — `none` when the payload lacks a version.
`setCache` runs only when the resulting version is not `'N/A'`. -/
def fetchAurVersionRemote (t1 : Except Unit (Response (Option String)))
    (cacheKey : String) (st : Store String) (now : ℤ) : String × Store String :=
  match t1 with
  | Except.error _ => ("N/A", st)
  | Except.ok response =>
    if response.isOk then
      match response.body with
      | Except.error _ => ("N/A", st)
      | Except.ok results =>
          let version := results.getD "N/A"
          if version ≠ "N/A" then (version, setCache st cacheKey version now)
          else (version, st)
    else ("N/A", st)

/-- Accessor `fetchAurPackageVersion(packageName)` from downloads.ts lines 324-340.
The cache-hit test `if (cached) return cached` is JS truthiness on a string:
an empty cached string falls through to the network. -/
def fetchAurPackageVersion (t1 : Except Unit (Response (Option String)))
    (packageName : String) (st : Store String) (now : ℤ) :
    String × Store String :=
  let cacheKey := "aur-" ++ packageName
  match getCache st cacheKey now with
  | some cached =>
      if cached ≠ "" then (cached, st)
      else fetchAurVersionRemote t1 cacheKey st now
  | none => fetchAurVersionRemote t1 cacheKey st now

/-! ### Cache-free variants of the accessors

For the advisory-cache property: the same accessors with every `getCache`
call replaced by a miss and every `setCache` call by a no-op, per the spec's
words "every accessor must behave correctly if every cache call were a
no-op". -/

/-- Variant of `fetchLiquidityData` with cache calls removed. -/
def fetchLiquidityDataNoCache (t : Transport (List LiquidityDayData))
    (retries : ℤ) : Option (List LiquidityDayData) :=
  match (fetchWithRetry t retries).1 with
  | Except.error _ => none
  | Except.ok response =>
    if response.isOk then
      match response.body with
      | Except.error _ => none
      | Except.ok data => some data
    else none

/-- Variant of `fetchOffers` with cache calls removed. -/
def fetchOffersNoCache (t : Transport (List Offer)) (retries : ℤ) :
    Option (List Offer) :=
  match (fetchWithRetry t retries).1 with
  | Except.error _ => none
  | Except.ok response =>
    if response.isOk then
      match response.body with
      | Except.error _ => none
      | Except.ok data => some (data.filter (fun offer => !offer.testnet))
    else none

/-- Variant of `fetchProviderStats` with cache calls removed. -/
def fetchProviderStatsNoCache (t : Transport (List ProviderQuoteStats))
    (retries : ℤ) : Option (List ProviderQuoteStats) :=
  match (fetchWithRetry t retries).1 with
  | Except.error _ => none
  | Except.ok response =>
    if response.isOk then
      match response.body with
      | Except.error _ => none
      | Except.ok data => some (data.filter (fun p => decide (1 < p.online_days)))
    else none

/-- Variant of `fetchProviderDailyBounds` with cache calls removed. -/
def fetchProviderDailyBoundsNoCache (t : Transport (List ProviderDailySwapBounds))
    (retries : ℤ) : Option (List ProviderDailySwapBounds) :=
  match (fetchWithRetry t retries).1 with
  | Except.error _ => none
  | Except.ok response =>
    if response.isOk then
      match response.body with
      | Except.error _ => none
      | Except.ok data => some data
    else none

/-- Variant of `fetchDailyPriceStats` with cache calls removed. -/
def fetchDailyPriceStatsNoCache (t : Transport (List DailyPriceStats))
    (retries : ℤ) : Option (List DailyPriceStats) :=
  match (fetchWithRetry t retries).1 with
  | Except.error _ => none
  | Except.ok response =>
    if response.isOk then
      match response.body with
      | Except.error _ => none
      | Except.ok data => some data
    else none

/-- Variant of `fetchAurPackageVersion` with cache calls removed. -/
def fetchAurPackageVersionNoCache (t1 : Except Unit (Response (Option String))) :
    String :=
  match t1 with
  | Except.error _ => "N/A"
  | Except.ok response =>
    if response.isOk then
      match response.body with
      | Except.error _ => "N/A"
      | Except.ok results => results.getD "N/A"
    else "N/A"

/-! ### Price formatting (src/lib/liquidity.ts lines 252-283)

JS numbers are modelled by exact rationals; on the inputs the claims exercise
(integer satoshi amounts up to 10^8 and quotients with small denominators)
binary doubles represent the intermediate values exactly, so the rational
model agrees with the JS evaluation.  `Number.prototype.toFixed(d)` rounds
the value to `d` decimal digits (round-half-up for the nonnegative exact
values arising here) and prints with exactly `d` digits after the point. -/

/-- Constant `SATOSHIS_PER_BTC = 100000000` from liquidity.ts. -/
def SATOSHIS_PER_BTC : ℕ := 100000000

/-- The character for decimal digit `n % 10`. -/
def digitChar (n : ℕ) : Char := Char.ofNat (48 + n % 10)

/-- The last `d` decimal digits of `n`, most significant first, zero-padded
to exactly `d` characters. -/
def fixedDigits : ℕ → ℕ → String
  | _, 0 => ""
  | n, d + 1 => fixedDigits (n / 10) d ++ String.mk [digitChar n]

/-- Render the scaled integer `m` (the value times `10 ^ digits`) as a
fixed-point decimal string with `digits` digits after the point. -/
def renderFixed (m : ℕ) (digits : ℕ) : String :=
  if digits = 0 then toString m
  else toString (m / 10 ^ digits) ++ "." ++ fixedDigits (m % 10 ^ digits) digits

/-- Model of JS `x.toFixed(digits)` on an exact rational `q`. -/
def toFixed (q : ℚ) (digits : ℕ) : String :=
  let scaled : ℤ := ⌊q * (10 : ℚ) ^ digits + 1 / 2⌋
  if scaled < 0 then "-" ++ renderFixed scaled.natAbs digits
  else renderFixed scaled.toNat digits

/-- Function `formatPrice(satoshisPerXmr)` from liquidity.ts lines 263-266. -/
def formatPrice (satoshisPerXmr : ℚ) : String :=
  let btcPerXmr := satoshisPerXmr / (SATOSHIS_PER_BTC : ℚ)
  toFixed btcPerXmr 6

/-- Function `satoshisToBtc(satoshis)` from liquidity.ts lines 252-258. -/
def satoshisToBtc (satoshis : ℚ) : String :=
  let btc := satoshis / (SATOSHIS_PER_BTC : ℚ)
  if 1 ≤ btc then toFixed btc 4 else toFixed btc 6

/-- Function `btcToXmr(satoshis, priceInSatoshisPerXmr)` from liquidity.ts
lines 272-283. -/
def btcToXmr (satoshis : ℚ) (priceInSatoshisPerXmr : ℚ) : String :=
  let xmr := satoshis / priceInSatoshisPerXmr
  if 100 ≤ xmr then toFixed xmr 1
  else if 10 ≤ xmr then toFixed xmr 2
  else toFixed xmr 3

/-- The number of characters after the last `.` of a string (its whole length
when it has no dot): the observable "decimal places" of a formatted number. -/
def decimalsAfterPoint (s : String) : ℕ :=
  (s.data.reverse.takeWhile (fun c => c ≠ '.')).length

/-! ### The common accessor shape

Each list accessor of liquidity.ts is an instance of one cache-through
pattern: cache hit returns the cached list; otherwise fetch with retry,
return `null` on a thrown fetch, a non-ok status or a failed decode, and on
success cache and return the (possibly filtered) decoded list.  Every list
accessor below is definitionally equal to `cachedListFetch` at its key and
filter, which the advisory-cache proofs exploit. -/

/-- The shared cache-through accessor pattern of liquidity.ts. -/
def cachedListFetch {α : Type} (key : String) (tf : List α → List α)
    (t : Transport (List α)) (retries : ℤ) (st : Store (List α)) (now : ℤ) :
    Option (List α) × Store (List α) :=
  match getCache st key now with
  | some cached => (some cached, st)
  | none =>
    match (fetchWithRetry t retries).1 with
    | Except.error _ => (none, st)
    | Except.ok response =>
      if response.isOk then
        match response.body with
        | Except.error _ => (none, st)
        | Except.ok data =>
            let filtered := tf data
            (some filtered, setCache st key filtered now)
      else (none, st)

/-- Variant of `cachedListFetch` with cache calls removed. -/
def cachedListFetchNoCache {α : Type} (tf : List α → List α)
    (t : Transport (List α)) (retries : ℤ) : Option (List α) :=
  match (fetchWithRetry t retries).1 with
  | Except.error _ => none
  | Except.ok response =>
    if response.isOk then
      match response.body with
      | Except.error _ => none
      | Except.ok data => some (tf data)
    else none

/-! ### Helper lemmas -/

/-- A cold cache always misses. -/
theorem getCache_emptyStore {α : Type} (key : String) (now : ℤ) :
    getCache (emptyStore (α := α)) key now = none := rfl

/-- Reading back the key just written: fresh entries hit, stale entries miss. -/
theorem getCache_setCache_self {α : Type} (st : Store α) (key : String)
    (v : α) (t0 t1 : ℤ) :
    getCache (setCache st key v t0) key t1 =
      if t1 - t0 < CACHE_DURATION_MS then some v else none := by
  unfold getCache setCache
  simp

/-- A transport failure on the first request is terminal for `fetchWithRetry`:
the thrown error propagates after exactly one request. -/
theorem fetchWithRetry_error_first {α : Type} (t : Transport α) (retries : ℤ)
    (e : Unit) (h : t 0 = Except.error e) :
    fetchWithRetry t retries = (Except.error e, 1) := by
  unfold fetchWithRetry
  unfold fetchWithRetryAux
  simp [h]

/-- A success response on the first request is returned immediately. -/
theorem fetchWithRetry_ok_first {α : Type} (t : Transport α) (retries : ℤ)
    (r : Response α) (h : t 0 = Except.ok r) (hok : r.isOk = true) :
    fetchWithRetry t retries = (Except.ok r, 1) := by
  unfold fetchWithRetry
  unfold fetchWithRetryAux
  simp [h, hok]

/-- When every request yields a 503 response, the loop of `fetchWithRetry`
runs through all `n` attempts and returns the `n`-th response. -/
theorem fetchWithRetryAux_all_503 {α : Type} (t : Transport α)
    (resp : ℕ → Response α) (h : ∀ i, t i = Except.ok (resp i))
    (hs : ∀ i, (resp i).status = 503) (n : ℕ) :
    ∀ (d a : ℕ), 1 ≤ a → a + d = n →
      fetchWithRetryAux t (n : ℤ) a = (Except.ok (resp (n - 1)), n) := by
  intro d
  induction d with
  | zero =>
    intro a ha han
    have hao : a = n := by omega
    subst hao
    unfold fetchWithRetryAux
    rw [h (a - 1)]
    simp [Response.isOk, hs (a - 1)]
  | succ d ih =>
    intro a ha han
    have hlt : (a : ℤ) < (n : ℤ) := by omega
    unfold fetchWithRetryAux
    rw [h (a - 1)]
    simp only [Response.isOk, hs (a - 1)]
    norm_num
    rw [if_pos (by omega : a ≤ n), if_pos (by omega : a < n)]
    exact ih (a + 1) (by omega) (by omega)

/-- When every request yields a non-2xx response, `fetchWithRetry` never
raises: it ends by returning some failed response (the `i+1`-st request for
some `i`), whatever the retry count. -/
theorem fetchWithRetryAux_all_bad {α : Type} (t : Transport α)
    (resp : ℕ → Response α) (h : ∀ i, t i = Except.ok (resp i))
    (hs : ∀ i, (resp i).isOk = false) (retries : ℤ) :
    ∀ (k a : ℕ), (retries + 1 - (a : ℤ)).toNat = k → 1 ≤ a →
      ∃ i, fetchWithRetryAux t retries a = (Except.ok (resp i), i + 1) := by
  intro k
  induction k with
  | zero =>
    intro a hk ha
    have : ¬((a : ℤ) ≤ retries) := by omega
    unfold fetchWithRetryAux
    rw [if_neg this, h (a - 1)]
    exact ⟨a - 1, by simp; omega⟩
  | succ k ih =>
    intro a hk ha
    have hle : (a : ℤ) ≤ retries := by omega
    unfold fetchWithRetryAux
    rw [if_pos hle, h (a - 1)]
    simp only [hs (a - 1), Bool.false_eq_true, if_false]
    by_cases hc : (a : ℤ) < retries ∧ 500 ≤ (resp (a - 1)).status
    · rw [if_pos hc]
      exact ih (a + 1) (by omega) (by omega)
    · rw [if_neg hc]
      exact ⟨a - 1, by simp; omega⟩

/-- C2: with an endpoint that yields HTTP 503 on every request,
`fetchWithRetry` with `n ≥ 1` retries issues exactly `n` requests and
returns the `n`-th (last) failed response; with an endpoint yielding
HTTP 404 on the first request, exactly one request is issued and that
response is returned (no retry on any non-5xx status). -/
theorem retry_bound :
    (∀ (α : Type) (t : Transport α) (resp : ℕ → Response α) (n : ℕ),
      1 ≤ n → (∀ i, t i = Except.ok (resp i)) →
      (∀ i, (resp i).status = 503) →
      fetchWithRetry t (n : ℤ) = (Except.ok (resp (n - 1)), n)) ∧
    (∀ (α : Type) (t : Transport α) (r : Response α) (n : ℕ),
      1 ≤ n → t 0 = Except.ok r → r.status = 404 →
      fetchWithRetry t (n : ℤ) = (Except.ok r, 1)) := by
  constructor
  · intro α t resp n hn h hs
    exact fetchWithRetryAux_all_503 t resp h hs n (n - 1) 1 le_rfl (by omega)
  · intro α t r n hn h hs
    unfold fetchWithRetry fetchWithRetryAux
    rw [if_pos (by exact_mod_cast hn : (((1 : ℕ) : ℤ)) ≤ (n : ℤ))]
    rw [show (1 : ℕ) - 1 = 0 from rfl, h]
    simp [Response.isOk, hs]

/-- Witness for C2 at concrete inputs: three 503 responses retried three
times, and a 404 response returned after a single request. -/
theorem retry_bound_witness :
    fetchWithRetry (fun _ => Except.ok (⟨503, Except.error ()⟩ : Response Unit)) (3 : ℤ) =
      (Except.ok (⟨503, Except.error ()⟩ : Response Unit), 3) ∧
    fetchWithRetry (fun _ => Except.ok (⟨404, Except.error ()⟩ : Response Unit)) (3 : ℤ) =
      (Except.ok (⟨404, Except.error ()⟩ : Response Unit), 1) := by
  constructor
  · exact retry_bound.1 Unit _ (fun _ => ⟨503, Except.error ()⟩) 3 (by decide)
      (fun _ => rfl) (fun _ => rfl)
  · exact retry_bound.2 Unit _ ⟨404, Except.error ()⟩ 3 (by decide) rfl rfl

/-- C9: when the retry count is 0 or negative (e.g. `API_RETRIES=0`), the
loop body of `fetchWithRetry` never executes; exactly one request is issued
by the unconditional post-loop fetch and its outcome is returned as-is,
whatever its status, with no backoff. -/
theorem zero_retries_single_fetch {α : Type} (t : Transport α) (retries : ℤ)
    (h : retries ≤ 0) : fetchWithRetry t retries = (t 0, 1) := by
  unfold fetchWithRetry fetchWithRetryAux
  rw [if_neg (by push_cast; omega : ¬((((1 : ℕ) : ℤ)) ≤ retries))]
  cases ht : t 0 <;> simp [ht]

/-- Witness for C9: with zero retries a 503 response comes back as-is after
one request. -/
theorem zero_retries_single_fetch_witness :
    fetchWithRetry (fun _ => Except.ok (⟨503, Except.error ()⟩ : Response Unit)) (0 : ℤ) =
      (Except.ok (⟨503, Except.error ()⟩ : Response Unit), 1) :=
  zero_retries_single_fetch (fun _ => Except.ok (⟨503, Except.error ()⟩ : Response Unit))
    0 (by decide)

/-- C3: `setCache(k, v)` followed by `getCache(k)` strictly before 10 minutes
have elapsed returns `v`; `getCache(k)` 10 minutes or more after the stored
timestamp returns absent; a persisted record that fails to decode is treated
as absent rather than raising. -/
theorem cache_ttl_roundtrip :
    (∀ (α : Type) (st : Store α) (k : String) (v : α) (t0 t1 : ℤ),
      t1 - t0 < CACHE_DURATION_MS →
      getCache (setCache st k v t0) k t1 = some v) ∧
    (∀ (α : Type) (st : Store α) (k : String) (v : α) (t0 t1 : ℤ),
      CACHE_DURATION_MS ≤ t1 - t0 →
      getCache (setCache st k v t0) k t1 = none) ∧
    (∀ (α : Type) (st : Store α) (k : String) (now : ℤ),
      st k = some (Except.error ()) →
      getCache st k now = none) := by
  refine ⟨?_, ?_, ?_⟩
  · intro α st k v t0 t1 hfresh
    rw [getCache_setCache_self, if_pos hfresh]
  · intro α st k v t0 t1 hstale
    rw [getCache_setCache_self, if_neg (by omega)]
  · intro α st k now hcorrupt
    unfold getCache
    rw [hcorrupt]

/-- Witness for C3 at a concrete key, value and clock: a hit 1ms after the
write, a miss exactly 10 minutes after, and a miss on a corrupt record. -/
theorem cache_ttl_roundtrip_witness :
    getCache (setCache (emptyStore (α := ℕ)) "k" 42 0) "k" 1 = some 42 ∧
    getCache (setCache (emptyStore (α := ℕ)) "k" 42 0) "k" 600000 = none ∧
    getCache (fun kk => if kk = "k" then some (Except.error ()) else none :
      Store ℕ) "k" 0 = none := by
  refine ⟨?_, ?_, ?_⟩
  · exact cache_ttl_roundtrip.1 ℕ emptyStore "k" 42 0 1 (by decide)
  · exact cache_ttl_roundtrip.2.1 ℕ emptyStore "k" 42 0 600000 (by decide)
  · exact cache_ttl_roundtrip.2.2 ℕ _ "k" 0 (by simp)

/-- A response with status 500 is not ok. -/
theorem isOk_false_of_status_500 {α : Type} (r : Response α)
    (h : r.status = 500) : r.isOk = false := by
  simp [Response.isOk, h]

/-- C5: with a cold cache, `fetchProviderStats` returns `null` (the
unavailable marker, not an empty list) when the provider-stats endpoint
answers HTTP 500 on every attempt, and returns an empty list (not `null`)
when the endpoint answers HTTP 200 with the JSON body `[]`. -/
theorem providerStats_empty_vs_unavailable :
    (∀ (t : Transport (List ProviderQuoteStats)) (resp : ℕ → Response (List ProviderQuoteStats))
      (retries now : ℤ),
      (∀ i, t i = Except.ok (resp i)) → (∀ i, (resp i).status = 500) →
      (fetchProviderStats t retries emptyStore now).1 = none) ∧
    (∀ (t : Transport (List ProviderQuoteStats)) (retries now : ℤ),
      t 0 = Except.ok ⟨200, Except.ok []⟩ →
      (fetchProviderStats t retries emptyStore now).1 = some []) := by
  constructor
  · intro t resp retries now h hs
    obtain ⟨i, hi⟩ := fetchWithRetryAux_all_bad t resp h
      (fun i => isOk_false_of_status_500 (resp i) (hs i)) retries
      (retries + 1 - (1 : ℤ)).toNat 1 rfl le_rfl
    unfold fetchProviderStats
    rw [getCache_emptyStore]
    rw [show (fetchWithRetry t retries).1 = Except.ok (resp i) by
      unfold fetchWithRetry; rw [hi]]
    simp [isOk_false_of_status_500 (resp i) (hs i)]
  · intro t retries now h
    unfold fetchProviderStats
    rw [getCache_emptyStore]
    rw [show (fetchWithRetry t retries).1 = Except.ok ⟨200, Except.ok []⟩ by
      rw [fetchWithRetry_ok_first t retries _ h (by simp [Response.isOk])]]
    simp [Response.isOk]

/-- Witness for C5: a permanently-500 endpoint yields `none`; a 200-`[]`
endpoint yields `some []`. -/
theorem providerStats_empty_vs_unavailable_witness :
    (fetchProviderStats (fun _ => Except.ok ⟨500, Except.error ()⟩) 3 emptyStore 0).1 = none ∧
    (fetchProviderStats (fun _ => Except.ok ⟨200, Except.ok []⟩) 3 emptyStore 0).1 = some [] := by
  constructor
  · exact providerStats_empty_vs_unavailable.1 _ (fun _ => ⟨500, Except.error ()⟩)
      3 0 (fun _ => rfl) (fun _ => rfl)
  · exact providerStats_empty_vs_unavailable.2 _ 3 0 rfl

/-- C7: for every `peerId`, when the underlying bounds fetch is unavailable
`getProviderHistoricalBounds(peerId)` returns `null`; on a successfully
fetched bounds list it returns exactly the entries whose `peer_id` equals
`peerId` (a permutation of that filter, with the same members), ordered
ascending by their day date, and the empty list when no entries match. -/
theorem providerHistoricalBounds_sorted :
    (∀ (t : Transport (List ProviderDailySwapBounds)) (retries : ℤ)
      (peerId : String) (st : Store (List ProviderDailySwapBounds)) (now : ℤ),
      (fetchProviderDailyBounds t retries st now).1 = none →
      (getProviderHistoricalBounds t retries peerId st now).1 = none) ∧
    (∀ (t : Transport (List ProviderDailySwapBounds)) (retries : ℤ)
      (peerId : String) (st : Store (List ProviderDailySwapBounds)) (now : ℤ)
      (bounds : List ProviderDailySwapBounds),
      (fetchProviderDailyBounds t retries st now).1 = some bounds →
      ∃ l, (getProviderHistoricalBounds t retries peerId st now).1 = some l ∧
        List.Perm l (bounds.filter (fun b => b.peer_id == peerId)) ∧
        List.Pairwise (fun a b => dateKey a.day ≤ dateKey b.day) l ∧
        (∀ b, b ∈ l ↔ (b ∈ bounds ∧ b.peer_id = peerId)) ∧
        (bounds.filter (fun b => b.peer_id == peerId) = [] → l = [])) := by
  constructor
  · intro t retries peerId st now hnone
    unfold getProviderHistoricalBounds
    rcases hfb : fetchProviderDailyBounds t retries st now with ⟨res, st1⟩
    rw [hfb] at hnone
    simp only at hnone
    subst hnone
    rfl
  · intro t retries peerId st now bounds hsome
    unfold getProviderHistoricalBounds
    rcases hfb : fetchProviderDailyBounds t retries st now with ⟨res, st1⟩
    rw [hfb] at hsome
    simp only at hsome
    subst hsome
    refine ⟨(bounds.filter (fun b => b.peer_id == peerId)).mergeSort
      (fun a b => decide (dateKey a.day ≤ dateKey b.day)),
      rfl, List.mergeSort_perm _ _, ?_, ?_, ?_⟩
    · have hsorted := @List.sorted_mergeSort ProviderDailySwapBounds
        (fun a b => decide (dateKey a.day ≤ dateKey b.day))
        (fun a b c hab hbc => by
          simp only [decide_eq_true_eq] at *; omega)
        (fun a b => by
          simp only [Bool.or_eq_true, decide_eq_true_eq]
          omega)
        (bounds.filter (fun b => b.peer_id == peerId))
      exact hsorted.imp (fun h => by
        simpa only [decide_eq_true_eq] using h)
    · intro b
      rw [List.mem_mergeSort, List.mem_filter]
      simp
    · intro hempty
      rw [hempty]
      exact List.mergeSort_nil

/-- Witness for C7: a transport failure yields `null`; two out-of-order
entries for provider `p` come back sorted ascending by day. -/
theorem providerHistoricalBounds_sorted_witness :
    (getProviderHistoricalBounds (fun _ => Except.error ()) 3 "p" emptyStore 0).1 = none ∧
    (∃ l, (getProviderHistoricalBounds
        (fun _ => Except.ok ⟨200, Except.ok
          [⟨"2024-02-03", "p", 5, 1⟩, ⟨"2024-01-01", "p", 7, 2⟩]⟩)
        3 "p" emptyStore 0).1 = some l ∧
      List.Perm l (List.filter (fun b => b.peer_id == "p")
        [⟨"2024-02-03", "p", 5, 1⟩, ⟨"2024-01-01", "p", 7, 2⟩]) ∧
      List.Pairwise (fun a b => dateKey a.day ≤ dateKey b.day) l ∧
      (∀ b, b ∈ l ↔ (b ∈ ([⟨"2024-02-03", "p", 5, 1⟩,
        ⟨"2024-01-01", "p", 7, 2⟩] : List ProviderDailySwapBounds) ∧
        b.peer_id = "p")) ∧
      (List.filter (fun b => b.peer_id == "p")
        ([⟨"2024-02-03", "p", 5, 1⟩, ⟨"2024-01-01", "p", 7, 2⟩] :
          List ProviderDailySwapBounds) = [] → l = [])) := by
  have h1 : (fetchProviderDailyBounds
      (fun _ => Except.error ()) 3 emptyStore 0).1 = none := by
    unfold fetchProviderDailyBounds
    rw [getCache_emptyStore]
    rw [show (fetchWithRetry (fun _ =>
        Except.error () : Transport (List ProviderDailySwapBounds)) 3).1 =
        Except.error () from by
      rw [fetchWithRetry_error_first _ 3 () rfl]]
  have h2 : (fetchProviderDailyBounds
      (fun _ => Except.ok ⟨200, Except.ok
        [⟨"2024-02-03", "p", 5, 1⟩, ⟨"2024-01-01", "p", 7, 2⟩]⟩)
      3 emptyStore 0).1 = some
        [⟨"2024-02-03", "p", 5, 1⟩, ⟨"2024-01-01", "p", 7, 2⟩] := by
    unfold fetchProviderDailyBounds
    rw [getCache_emptyStore]
    rw [show (fetchWithRetry (fun _ => Except.ok ⟨200, Except.ok
        [⟨"2024-02-03", "p", 5, 1⟩, ⟨"2024-01-01", "p", 7, 2⟩]⟩ :
        Transport (List ProviderDailySwapBounds)) 3).1 =
        Except.ok ⟨200, Except.ok
          [⟨"2024-02-03", "p", 5, 1⟩, ⟨"2024-01-01", "p", 7, 2⟩]⟩ from by
      rw [fetchWithRetry_ok_first _ 3 _ rfl (by decide)]]
    simp [Response.isOk]
  exact ⟨providerHistoricalBounds_sorted.1 _ 3 "p" emptyStore 0 h1,
    providerHistoricalBounds_sorted.2 _ 3 "p" emptyStore 0 _ h2⟩

/-- Each list accessor is definitionally the common pattern: liquidity data. -/
theorem fetchLiquidityData_eq (t : Transport (List LiquidityDayData))
    (retries : ℤ) (st : Store (List LiquidityDayData)) (now : ℤ) :
    fetchLiquidityData t retries st now =
      cachedListFetch CACHE_KEY (fun data => data) t retries st now := by
  unfold fetchLiquidityData cachedListFetch
  cases getCache st CACHE_KEY now with
  | some c => rfl
  | none =>
    cases (fetchWithRetry t retries).1 with
    | error e => rfl
    | ok r =>
      cases hok : r.isOk with
      | false => simp [hok]
      | true =>
        cases hb : r.body <;> simp [hok, hb]

/-- Each list accessor is definitionally the common pattern: offers. -/
theorem fetchOffers_eq (t : Transport (List Offer)) (retries : ℤ)
    (st : Store (List Offer)) (now : ℤ) :
    fetchOffers t retries st now =
      cachedListFetch OFFERS_CACHE_KEY
        (fun data => data.filter (fun offer => !offer.testnet)) t retries st now := by
  unfold fetchOffers cachedListFetch
  cases getCache st OFFERS_CACHE_KEY now with
  | some c => rfl
  | none =>
    cases (fetchWithRetry t retries).1 with
    | error e => rfl
    | ok r =>
      cases hok : r.isOk with
      | false => simp [hok]
      | true =>
        cases hb : r.body <;> simp [hok, hb]

/-- Each list accessor is definitionally the common pattern: provider stats. -/
theorem fetchProviderStats_eq (t : Transport (List ProviderQuoteStats))
    (retries : ℤ) (st : Store (List ProviderQuoteStats)) (now : ℤ) :
    fetchProviderStats t retries st now =
      cachedListFetch PROVIDERS_CACHE_KEY
        (fun data => data.filter (fun p => decide (1 < p.online_days))) t retries st now := by
  unfold fetchProviderStats cachedListFetch
  cases getCache st PROVIDERS_CACHE_KEY now with
  | some c => rfl
  | none =>
    cases (fetchWithRetry t retries).1 with
    | error e => rfl
    | ok r =>
      cases hok : r.isOk with
      | false => simp [hok]
      | true =>
        cases hb : r.body <;> simp [hok, hb]

/-- Each list accessor is definitionally the common pattern: daily bounds. -/
theorem fetchProviderDailyBounds_eq (t : Transport (List ProviderDailySwapBounds))
    (retries : ℤ) (st : Store (List ProviderDailySwapBounds)) (now : ℤ) :
    fetchProviderDailyBounds t retries st now =
      cachedListFetch PROVIDER_BOUNDS_CACHE_KEY (fun data => data) t retries st now := by
  unfold fetchProviderDailyBounds cachedListFetch
  cases getCache st PROVIDER_BOUNDS_CACHE_KEY now with
  | some c => rfl
  | none =>
    cases (fetchWithRetry t retries).1 with
    | error e => rfl
    | ok r =>
      cases hok : r.isOk with
      | false => simp [hok]
      | true =>
        cases hb : r.body <;> simp [hok, hb]

/-- Each list accessor is definitionally the common pattern: price stats. -/
theorem fetchDailyPriceStats_eq (t : Transport (List DailyPriceStats))
    (retries : ℤ) (st : Store (List DailyPriceStats)) (now : ℤ) :
    fetchDailyPriceStats t retries st now =
      cachedListFetch PRICE_STATS_CACHE_KEY (fun data => data) t retries st now := by
  unfold fetchDailyPriceStats cachedListFetch
  cases getCache st PRICE_STATS_CACHE_KEY now with
  | some c => rfl
  | none =>
    cases (fetchWithRetry t retries).1 with
    | error e => rfl
    | ok r =>
      cases hok : r.isOk with
      | false => simp [hok]
      | true =>
        cases hb : r.body <;> simp [hok, hb]

/-- With a cold cache the common pattern computes the cache-free result. -/
theorem cachedListFetch_cold {α : Type} (key : String) (tf : List α → List α)
    (t : Transport (List α)) (retries now : ℤ) :
    (cachedListFetch key tf t retries emptyStore now).1 =
      cachedListFetchNoCache tf t retries := by
  unfold cachedListFetch cachedListFetchNoCache
  rw [getCache_emptyStore]
  cases h : (fetchWithRetry t retries).1 with
  | error e => rfl
  | ok r =>
    cases hok : r.isOk with
    | false => simp [hok]
    | true => cases hb : r.body <;> simp [hok, hb]

/-- A warm cache populated by a prior identical call yields the same result
as the prior (cold) call. -/
theorem cachedListFetch_warm {α : Type} (key : String) (tf : List α → List α)
    (t : Transport (List α)) (retries now0 now1 : ℤ) :
    (cachedListFetch key tf t retries
      (cachedListFetch key tf t retries emptyStore now0).2 now1).1 =
      (cachedListFetch key tf t retries emptyStore now0).1 := by
  cases h : (fetchWithRetry t retries).1 with
  | error e =>
    unfold cachedListFetch
    rw [getCache_emptyStore]
    simp [h, getCache_emptyStore]
  | ok r =>
    cases hok : r.isOk with
    | false =>
      unfold cachedListFetch
      rw [getCache_emptyStore]
      simp [h, hok, getCache_emptyStore]
    | true =>
      cases hb : r.body with
      | error e =>
        unfold cachedListFetch
        rw [getCache_emptyStore]
        simp [h, hok, hb, getCache_emptyStore]
      | ok data =>
        unfold cachedListFetch
        rw [getCache_emptyStore]
        simp only [h, hok, hb, if_true]
        by_cases hf : now1 - now0 < CACHE_DURATION_MS
        · simp [getCache_setCache_self, hf]
        · simp [getCache_setCache_self, hf, h, hok, hb]

/-- The cache-free liquidity-data accessor is the common cache-free pattern. -/
theorem fetchLiquidityDataNoCache_eq (t : Transport (List LiquidityDayData))
    (retries : ℤ) :
    fetchLiquidityDataNoCache t retries =
      cachedListFetchNoCache (fun data => data) t retries := by
  unfold fetchLiquidityDataNoCache cachedListFetchNoCache
  cases (fetchWithRetry t retries).1 with
  | error e => rfl
  | ok r =>
    cases hok : r.isOk with
    | false => simp [hok]
    | true => cases hb : r.body <;> simp [hok, hb]

/-- The cache-free offers accessor is the common cache-free pattern. -/
theorem fetchOffersNoCache_eq (t : Transport (List Offer)) (retries : ℤ) :
    fetchOffersNoCache t retries =
      cachedListFetchNoCache
        (fun data => data.filter (fun offer => !offer.testnet)) t retries := by
  unfold fetchOffersNoCache cachedListFetchNoCache
  cases (fetchWithRetry t retries).1 with
  | error e => rfl
  | ok r =>
    cases hok : r.isOk with
    | false => simp [hok]
    | true => cases hb : r.body <;> simp [hok, hb]

/-- The cache-free provider-stats accessor is the common cache-free pattern. -/
theorem fetchProviderStatsNoCache_eq (t : Transport (List ProviderQuoteStats))
    (retries : ℤ) :
    fetchProviderStatsNoCache t retries =
      cachedListFetchNoCache
        (fun data => data.filter (fun p => decide (1 < p.online_days))) t retries := by
  unfold fetchProviderStatsNoCache cachedListFetchNoCache
  cases (fetchWithRetry t retries).1 with
  | error e => rfl
  | ok r =>
    cases hok : r.isOk with
    | false => simp [hok]
    | true => cases hb : r.body <;> simp [hok, hb]

/-- The cache-free daily-bounds accessor is the common cache-free pattern. -/
theorem fetchProviderDailyBoundsNoCache_eq
    (t : Transport (List ProviderDailySwapBounds)) (retries : ℤ) :
    fetchProviderDailyBoundsNoCache t retries =
      cachedListFetchNoCache (fun data => data) t retries := by
  unfold fetchProviderDailyBoundsNoCache cachedListFetchNoCache
  cases (fetchWithRetry t retries).1 with
  | error e => rfl
  | ok r =>
    cases hok : r.isOk with
    | false => simp [hok]
    | true => cases hb : r.body <;> simp [hok, hb]

/-- The cache-free price-stats accessor is the common cache-free pattern. -/
theorem fetchDailyPriceStatsNoCache_eq (t : Transport (List DailyPriceStats))
    (retries : ℤ) :
    fetchDailyPriceStatsNoCache t retries =
      cachedListFetchNoCache (fun data => data) t retries := by
  unfold fetchDailyPriceStatsNoCache cachedListFetchNoCache
  cases (fetchWithRetry t retries).1 with
  | error e => rfl
  | ok r =>
    cases hok : r.isOk with
    | false => simp [hok]
    | true => cases hb : r.body <;> simp [hok, hb]

/-- With a cold cache the AUR accessor computes the cache-free result. -/
theorem fetchAurPackageVersion_cold (t1 : Except Unit (Response (Option String)))
    (pkg : String) (now : ℤ) :
    (fetchAurPackageVersion t1 pkg emptyStore now).1 =
      fetchAurPackageVersionNoCache t1 := by
  unfold fetchAurPackageVersion fetchAurVersionRemote fetchAurPackageVersionNoCache
  simp only [getCache_emptyStore]
  cases t1 with
  | error e => rfl
  | ok r =>
    cases hok : r.isOk with
    | false => simp [hok]
    | true =>
      cases hb : r.body with
      | error e => simp [hok, hb]
      | ok results =>
        simp only [hok, hb, if_true]
        split <;> rfl

/-- A warm AUR cache populated by a prior identical call yields the same
version string as the prior (cold) call. -/
theorem fetchAurPackageVersion_warm (t1 : Except Unit (Response (Option String)))
    (pkg : String) (now0 now1 : ℤ) :
    (fetchAurPackageVersion t1 pkg
      (fetchAurPackageVersion t1 pkg emptyStore now0).2 now1).1 =
      (fetchAurPackageVersion t1 pkg emptyStore now0).1 := by
  cases t1 with
  | error e =>
    simp [fetchAurPackageVersion, fetchAurVersionRemote, getCache_emptyStore]
  | ok r =>
    cases hok : r.isOk with
    | false =>
      simp [fetchAurPackageVersion, fetchAurVersionRemote, getCache_emptyStore, hok]
    | true =>
      cases hb : r.body with
      | error e =>
        simp [fetchAurPackageVersion, fetchAurVersionRemote, getCache_emptyStore, hok, hb]
      | ok results =>
        by_cases hv : results.getD "N/A" = "N/A"
        · simp [fetchAurPackageVersion, fetchAurVersionRemote, getCache_emptyStore,
            hok, hb, hv]
        · by_cases hf : now1 - now0 < CACHE_DURATION_MS
          · by_cases hne : results.getD "N/A" = ""
            · simp [fetchAurPackageVersion, fetchAurVersionRemote, getCache_emptyStore,
                getCache_setCache_self, hok, hb, hv, hf, hne]
            · simp [fetchAurPackageVersion, fetchAurVersionRemote, getCache_emptyStore,
                getCache_setCache_self, hok, hb, hv, hf, hne]
          · simp [fetchAurPackageVersion, fetchAurVersionRemote, getCache_emptyStore,
              getCache_setCache_self, hok, hb, hv, hf]

/-- C1: cache advisory equivalence.  For each accessor (`fetchOffers`,
`fetchProviderStats`, `fetchProviderDailyBounds`, `fetchDailyPriceStats`,
`fetchAurPackageVersion`, `fetchLiquidityData`), under fixed remote
responses, the result with a cache warmed by a prior identical call equals
the result of that prior cold-cache call, and the cold-cache result equals
the accessor with every `getCache` call replaced by a miss and every
`setCache` call by a no-op. -/
theorem cache_advisory_equivalence :
    (∀ (t : Transport (List Offer)) (retries now0 now1 : ℤ),
      (fetchOffers t retries (fetchOffers t retries emptyStore now0).2 now1).1 =
        (fetchOffers t retries emptyStore now0).1 ∧
      (fetchOffers t retries emptyStore now0).1 = fetchOffersNoCache t retries) ∧
    (∀ (t : Transport (List ProviderQuoteStats)) (retries now0 now1 : ℤ),
      (fetchProviderStats t retries (fetchProviderStats t retries emptyStore now0).2 now1).1 =
        (fetchProviderStats t retries emptyStore now0).1 ∧
      (fetchProviderStats t retries emptyStore now0).1 = fetchProviderStatsNoCache t retries) ∧
    (∀ (t : Transport (List ProviderDailySwapBounds)) (retries now0 now1 : ℤ),
      (fetchProviderDailyBounds t retries
          (fetchProviderDailyBounds t retries emptyStore now0).2 now1).1 =
        (fetchProviderDailyBounds t retries emptyStore now0).1 ∧
      (fetchProviderDailyBounds t retries emptyStore now0).1 =
        fetchProviderDailyBoundsNoCache t retries) ∧
    (∀ (t : Transport (List DailyPriceStats)) (retries now0 now1 : ℤ),
      (fetchDailyPriceStats t retries
          (fetchDailyPriceStats t retries emptyStore now0).2 now1).1 =
        (fetchDailyPriceStats t retries emptyStore now0).1 ∧
      (fetchDailyPriceStats t retries emptyStore now0).1 =
        fetchDailyPriceStatsNoCache t retries) ∧
    (∀ (t : Transport (List LiquidityDayData)) (retries now0 now1 : ℤ),
      (fetchLiquidityData t retries (fetchLiquidityData t retries emptyStore now0).2 now1).1 =
        (fetchLiquidityData t retries emptyStore now0).1 ∧
      (fetchLiquidityData t retries emptyStore now0).1 = fetchLiquidityDataNoCache t retries) ∧
    (∀ (t1 : Except Unit (Response (Option String))) (pkg : String) (now0 now1 : ℤ),
      (fetchAurPackageVersion t1 pkg
          (fetchAurPackageVersion t1 pkg emptyStore now0).2 now1).1 =
        (fetchAurPackageVersion t1 pkg emptyStore now0).1 ∧
      (fetchAurPackageVersion t1 pkg emptyStore now0).1 =
        fetchAurPackageVersionNoCache t1) := by
  refine ⟨?_, ?_, ?_, ?_, ?_, ?_⟩
  · intro t retries now0 now1
    simp only [fetchOffers_eq, fetchOffersNoCache_eq]
    exact ⟨cachedListFetch_warm _ _ t retries now0 now1,
      cachedListFetch_cold _ _ t retries now0⟩
  · intro t retries now0 now1
    simp only [fetchProviderStats_eq, fetchProviderStatsNoCache_eq]
    exact ⟨cachedListFetch_warm _ _ t retries now0 now1,
      cachedListFetch_cold _ _ t retries now0⟩
  · intro t retries now0 now1
    simp only [fetchProviderDailyBounds_eq, fetchProviderDailyBoundsNoCache_eq]
    exact ⟨cachedListFetch_warm _ _ t retries now0 now1,
      cachedListFetch_cold _ _ t retries now0⟩
  · intro t retries now0 now1
    simp only [fetchDailyPriceStats_eq, fetchDailyPriceStatsNoCache_eq]
    exact ⟨cachedListFetch_warm _ _ t retries now0 now1,
      cachedListFetch_cold _ _ t retries now0⟩
  · intro t retries now0 now1
    simp only [fetchLiquidityData_eq, fetchLiquidityDataNoCache_eq]
    exact ⟨cachedListFetch_warm _ _ t retries now0 now1,
      cachedListFetch_cold _ _ t retries now0⟩
  · intro t1 pkg now0 now1
    exact ⟨fetchAurPackageVersion_warm t1 pkg now0 now1,
      fetchAurPackageVersion_cold t1 pkg now0⟩

/-- A non-ok, non-5xx response on the first request is returned after a
single request, whatever the retry count. -/
theorem fetchWithRetry_nonRetryable_first {α : Type} (t : Transport α)
    (retries : ℤ) (r : Response α) (h : t 0 = Except.ok r)
    (hok : r.isOk = false) (hlt : r.status < 500) :
    fetchWithRetry t retries = (Except.ok r, 1) := by
  unfold fetchWithRetry fetchWithRetryAux
  by_cases hle : (((1 : ℕ) : ℤ)) ≤ retries
  · rw [if_pos hle, h]
    simp [hok]
    omega
  · rw [if_neg hle, h]

/-- A transport failure makes the common cache-through pattern fall back to
`null` with the store untouched. -/
theorem cachedListFetch_transport_error {α : Type} (key : String)
    (tf : List α → List α) (t : Transport (List α)) (retries now : ℤ) (e : Unit)
    (h : t 0 = Except.error e) :
    cachedListFetch key tf t retries emptyStore now = (none, emptyStore) := by
  unfold cachedListFetch
  rw [getCache_emptyStore]
  rw [show (fetchWithRetry t retries).1 = Except.error e from by
    rw [fetchWithRetry_error_first t retries e h]]

/-- A non-ok final response makes the common cache-through pattern fall back
to `null` with the store untouched. -/
theorem cachedListFetch_bad_response {α : Type} (key : String)
    (tf : List α → List α) (t : Transport (List α)) (retries now : ℤ)
    (r : Response (List α)) (h : (fetchWithRetry t retries).1 = Except.ok r)
    (hok : r.isOk = false) :
    cachedListFetch key tf t retries emptyStore now = (none, emptyStore) := by
  unfold cachedListFetch
  rw [getCache_emptyStore, h]
  simp [hok]

/-- Counterexample to C4 as stated: the release accessor does let a raised
failure escape.  With a cold cache and a transport-level failure,
`fetchGitHubRelease` propagates the raised error to its caller instead of
converting it into a fallback result. -/
theorem release_accessor_error_escapes :
    (fetchGitHubRelease (Except.error () : Except Unit (Response Unit))
      emptyStore 0).1 = Except.error () := rfl

/-- C4 (amended): every liquidity accessor and the AUR version accessor
convert a transport-level failure or a non-success final HTTP status locally
into their fallback result (`null` resp. `'N/A'`), with the cache untouched;
but the release accessor `fetchGitHubRelease` is the exception: it raises on
a non-success status and lets a thrown transport failure escape to its
caller. -/
theorem accessor_error_fallbacks :
    (∀ (t : Transport (List Offer)) (retries now : ℤ) (e : Unit),
      t 0 = Except.error e →
      fetchOffers t retries emptyStore now = (none, emptyStore)) ∧
    (∀ (t : Transport (List Offer)) (retries now : ℤ) (r : Response (List Offer)),
      (fetchWithRetry t retries).1 = Except.ok r → r.isOk = false →
      fetchOffers t retries emptyStore now = (none, emptyStore)) ∧
    (∀ (t : Transport (List ProviderQuoteStats)) (retries now : ℤ) (e : Unit),
      t 0 = Except.error e →
      fetchProviderStats t retries emptyStore now = (none, emptyStore)) ∧
    (∀ (t : Transport (List ProviderQuoteStats)) (retries now : ℤ)
      (r : Response (List ProviderQuoteStats)),
      (fetchWithRetry t retries).1 = Except.ok r → r.isOk = false →
      fetchProviderStats t retries emptyStore now = (none, emptyStore)) ∧
    (∀ (t : Transport (List ProviderDailySwapBounds)) (retries now : ℤ) (e : Unit),
      t 0 = Except.error e →
      fetchProviderDailyBounds t retries emptyStore now = (none, emptyStore)) ∧
    (∀ (t : Transport (List ProviderDailySwapBounds)) (retries now : ℤ)
      (r : Response (List ProviderDailySwapBounds)),
      (fetchWithRetry t retries).1 = Except.ok r → r.isOk = false →
      fetchProviderDailyBounds t retries emptyStore now = (none, emptyStore)) ∧
    (∀ (t : Transport (List DailyPriceStats)) (retries now : ℤ) (e : Unit),
      t 0 = Except.error e →
      fetchDailyPriceStats t retries emptyStore now = (none, emptyStore)) ∧
    (∀ (t : Transport (List DailyPriceStats)) (retries now : ℤ)
      (r : Response (List DailyPriceStats)),
      (fetchWithRetry t retries).1 = Except.ok r → r.isOk = false →
      fetchDailyPriceStats t retries emptyStore now = (none, emptyStore)) ∧
    (∀ (t : Transport (List LiquidityDayData)) (retries now : ℤ) (e : Unit),
      t 0 = Except.error e →
      fetchLiquidityData t retries emptyStore now = (none, emptyStore)) ∧
    (∀ (t : Transport (List LiquidityDayData)) (retries now : ℤ)
      (r : Response (List LiquidityDayData)),
      (fetchWithRetry t retries).1 = Except.ok r → r.isOk = false →
      fetchLiquidityData t retries emptyStore now = (none, emptyStore)) ∧
    (∀ (pkg : String) (now : ℤ),
      (fetchAurPackageVersion (Except.error ()) pkg emptyStore now).1 = "N/A") ∧
    (∀ (r : Response (Option String)) (pkg : String) (now : ℤ),
      r.isOk = false →
      (fetchAurPackageVersion (Except.ok r) pkg emptyStore now).1 = "N/A") ∧
    (∀ (α : Type) (now : ℤ) (e : Unit),
      (fetchGitHubRelease (Except.error e : Except Unit (Response α))
        emptyStore now).1 = Except.error e) ∧
    (∀ (α : Type) (r : Response α) (now : ℤ),
      r.isOk = false →
      (fetchGitHubRelease (Except.ok r) emptyStore now).1 = Except.error ()) := by
  refine ⟨?_, ?_, ?_, ?_, ?_, ?_, ?_, ?_, ?_, ?_, ?_, ?_, ?_, ?_⟩
  · intro t retries now e h
    rw [fetchOffers_eq]
    exact cachedListFetch_transport_error _ _ t retries now e h
  · intro t retries now r h hok
    rw [fetchOffers_eq]
    exact cachedListFetch_bad_response _ _ t retries now r h hok
  · intro t retries now e h
    rw [fetchProviderStats_eq]
    exact cachedListFetch_transport_error _ _ t retries now e h
  · intro t retries now r h hok
    rw [fetchProviderStats_eq]
    exact cachedListFetch_bad_response _ _ t retries now r h hok
  · intro t retries now e h
    rw [fetchProviderDailyBounds_eq]
    exact cachedListFetch_transport_error _ _ t retries now e h
  · intro t retries now r h hok
    rw [fetchProviderDailyBounds_eq]
    exact cachedListFetch_bad_response _ _ t retries now r h hok
  · intro t retries now e h
    rw [fetchDailyPriceStats_eq]
    exact cachedListFetch_transport_error _ _ t retries now e h
  · intro t retries now r h hok
    rw [fetchDailyPriceStats_eq]
    exact cachedListFetch_bad_response _ _ t retries now r h hok
  · intro t retries now e h
    rw [fetchLiquidityData_eq]
    exact cachedListFetch_transport_error _ _ t retries now e h
  · intro t retries now r h hok
    rw [fetchLiquidityData_eq]
    exact cachedListFetch_bad_response _ _ t retries now r h hok
  · intro pkg now
    rfl
  · intro r pkg now hok
    unfold fetchAurPackageVersion fetchAurVersionRemote
    simp [getCache_emptyStore, hok]
  · intro α now e
    rfl
  · intro α r now hok
    unfold fetchGitHubRelease
    rw [getCache_emptyStore]
    simp [hok]

/-- Witness for C4 (amended) at concrete failing endpoints. -/
theorem accessor_error_fallbacks_witness :
    fetchOffers (fun _ => Except.error ()) 3 emptyStore 0 = (none, emptyStore) ∧
    fetchOffers (fun _ => Except.ok ⟨404, Except.error ()⟩) 3 emptyStore 0 =
      (none, emptyStore) ∧
    (fetchAurPackageVersion (Except.ok ⟨404, Except.error ()⟩) "eigenwallet-bin"
      emptyStore 0).1 = "N/A" ∧
    (fetchGitHubRelease (Except.ok (⟨500, Except.error ()⟩ : Response Unit))
      emptyStore 0).1 = Except.error () := by
  refine ⟨?_, ?_, ?_, ?_⟩
  · exact accessor_error_fallbacks.1 _ 3 0 () rfl
  · exact accessor_error_fallbacks.2.1 _ 3 0 ⟨404, Except.error ()⟩
      (by rw [fetchWithRetry_nonRetryable_first _ 3 _ rfl (by decide) (by decide)])
      (by decide)
  · exact accessor_error_fallbacks.2.2.2.2.2.2.2.2.2.2.2.1
      ⟨404, Except.error ()⟩ "eigenwallet-bin" 0 (by decide)
  · exact accessor_error_fallbacks.2.2.2.2.2.2.2.2.2.2.2.2.2
      Unit ⟨500, Except.error ()⟩ 0 (by decide)

/-- Counterexample to C6 as stated: on a successful fetch whose payload is a
single zero-priced point, `fetchDailyPriceStats` returns (and caches) that
point unfiltered — the returned list contains an entry with `avg_price = 0`,
so the accessor does not drop zero-valued price points. -/
theorem dailyPriceStats_returns_zero_price_entry :
    (fetchDailyPriceStats
      (fun _ => Except.ok ⟨200, Except.ok [⟨[2024, 100], 0, 0, 0⟩]⟩)
      3 emptyStore 0).1 = some [⟨[2024, 100], 0, 0, 0⟩] ∧
    (⟨[2024, 100], 0, 0, 0⟩ : DailyPriceStats).avg_price = 0 := by
  constructor
  · unfold fetchDailyPriceStats
    rw [getCache_emptyStore]
    rw [show (fetchWithRetry (fun _ => Except.ok ⟨200, Except.ok
        [⟨[2024, 100], 0, 0, 0⟩]⟩ : Transport (List DailyPriceStats)) 3).1 =
        Except.ok ⟨200, Except.ok [⟨[2024, 100], 0, 0, 0⟩]⟩ from by
      rw [fetchWithRetry_ok_first _ 3 _ rfl (by decide)]]
    simp [Response.isOk]
  · rfl

/-- C6 (amended): `fetchDailyPriceStats` caches and returns the decoded
payload unfiltered; the zero-valued price points are dropped downstream, in
`generateBestPriceChart`, whose valid-data filter keeps exactly the entries
with `avg_price > 0`. -/
theorem dailyPriceStats_unfiltered_chart_filters :
    (∀ (t : Transport (List DailyPriceStats)) (retries : ℤ)
      (st : Store (List DailyPriceStats)) (now : ℤ)
      (r : Response (List DailyPriceStats)) (data : List DailyPriceStats),
      getCache st PRICE_STATS_CACHE_KEY now = none →
      (fetchWithRetry t retries).1 = Except.ok r → r.isOk = true →
      r.body = Except.ok data →
      fetchDailyPriceStats t retries st now =
        (some data, setCache st PRICE_STATS_CACHE_KEY data now)) ∧
    (∀ (priceData : List DailyPriceStats) (d : DailyPriceStats),
      d ∈ generateBestPriceChartValidData priceData ↔
        (d ∈ priceData ∧ 0 < d.avg_price)) := by
  constructor
  · intro t retries st now r data hmiss hfetch hok hbody
    unfold fetchDailyPriceStats
    rw [hmiss, hfetch]
    simp [hok, hbody]
  · intro priceData d
    unfold generateBestPriceChartValidData
    rw [List.mem_filter]
    simp

/-- Witness for C6 (amended): a payload with one zero-priced and one
positively-priced point is returned by the accessor in full, and the chart
filter keeps exactly the positive one. -/
theorem dailyPriceStats_unfiltered_chart_filters_witness :
    fetchDailyPriceStats
      (fun _ => Except.ok ⟨200,
        Except.ok [⟨[2024, 100], 0, 0, 0⟩, ⟨[2024, 101], 1, 2, 3⟩]⟩)
      3 emptyStore 0 =
      (some [⟨[2024, 100], 0, 0, 0⟩, ⟨[2024, 101], 1, 2, 3⟩],
        setCache emptyStore PRICE_STATS_CACHE_KEY
          [⟨[2024, 100], 0, 0, 0⟩, ⟨[2024, 101], 1, 2, 3⟩] 0) ∧
    ((⟨[2024, 101], 1, 2, 3⟩ : DailyPriceStats) ∈
      generateBestPriceChartValidData
        [⟨[2024, 100], 0, 0, 0⟩, ⟨[2024, 101], 1, 2, 3⟩] ↔
      ((⟨[2024, 101], 1, 2, 3⟩ : DailyPriceStats) ∈
        ([⟨[2024, 100], 0, 0, 0⟩, ⟨[2024, 101], 1, 2, 3⟩] : List DailyPriceStats) ∧
        (0 : ℤ) < (⟨[2024, 101], 1, 2, 3⟩ : DailyPriceStats).avg_price)) := by
  constructor
  · exact dailyPriceStats_unfiltered_chart_filters.1 _ 3 emptyStore 0
      ⟨200, Except.ok [⟨[2024, 100], 0, 0, 0⟩, ⟨[2024, 101], 1, 2, 3⟩]⟩
      [⟨[2024, 100], 0, 0, 0⟩, ⟨[2024, 101], 1, 2, 3⟩]
      rfl
      (by rw [fetchWithRetry_ok_first _ 3 _ rfl (by decide)])
      (by decide) rfl
  · exact dailyPriceStats_unfiltered_chart_filters.2
      [⟨[2024, 100], 0, 0, 0⟩, ⟨[2024, 101], 1, 2, 3⟩] ⟨[2024, 101], 1, 2, 3⟩

/-- When the remote AUR lookup comes back as `'N/A'`, it has not written to
the cache. -/
theorem fetchAurVersionRemote_na (t1 : Except Unit (Response (Option String)))
    (key : String) (st : Store String) (now : ℤ) :
    (fetchAurVersionRemote t1 key st now).1 = "N/A" →
    (fetchAurVersionRemote t1 key st now).2 = st := by
  unfold fetchAurVersionRemote
  cases t1 with
  | error e => intro _; rfl
  | ok r =>
    cases hok : r.isOk with
    | false => simp [hok]
    | true =>
      cases hb : r.body with
      | error e => simp [hok, hb]
      | ok results =>
        simp only [hok, hb, if_true]
        by_cases hv : results.getD "N/A" = "N/A"
        · simp [hv]
        · simp [hv]

/-- C10: `fetchAurPackageVersion` yields `'N/A'` whenever the registry
response is non-success, the decoded payload lacks a version, the body fails
to decode, or the request raises; and whenever the call returns `'N/A'` the
cache is left untouched, so a failed lookup is never served from cache. -/
theorem aur_failure_not_cached :
    (∀ (pkg : String) (now : ℤ),
      (fetchAurPackageVersion (Except.error ()) pkg emptyStore now).1 = "N/A") ∧
    (∀ (r : Response (Option String)) (pkg : String) (now : ℤ),
      r.isOk = false →
      (fetchAurPackageVersion (Except.ok r) pkg emptyStore now).1 = "N/A") ∧
    (∀ (r : Response (Option String)) (pkg : String) (now : ℤ),
      r.isOk = true → r.body = Except.ok none →
      (fetchAurPackageVersion (Except.ok r) pkg emptyStore now).1 = "N/A") ∧
    (∀ (r : Response (Option String)) (pkg : String) (now : ℤ),
      r.isOk = true → r.body = Except.error () →
      (fetchAurPackageVersion (Except.ok r) pkg emptyStore now).1 = "N/A") ∧
    (∀ (t1 : Except Unit (Response (Option String))) (pkg : String)
      (st : Store String) (now : ℤ),
      (fetchAurPackageVersion t1 pkg st now).1 = "N/A" →
      (fetchAurPackageVersion t1 pkg st now).2 = st) := by
  refine ⟨?_, ?_, ?_, ?_, ?_⟩
  · intro pkg now
    rfl
  · intro r pkg now hok
    unfold fetchAurPackageVersion fetchAurVersionRemote
    simp [getCache_emptyStore, hok]
  · intro r pkg now hok hb
    unfold fetchAurPackageVersion fetchAurVersionRemote
    simp [getCache_emptyStore, hok, hb]
  · intro r pkg now hok hb
    unfold fetchAurPackageVersion fetchAurVersionRemote
    simp [getCache_emptyStore, hok, hb]
  · intro t1 pkg st now
    simp only [fetchAurPackageVersion]
    cases hg : getCache st ("aur-" ++ pkg) now with
    | some cached =>
      by_cases hne : cached = ""
      · subst hne
        simp only [ne_eq, not_true_eq_false, Bool.false_eq_true, if_false,
          eq_self_iff_true, not_true, ite_false]
        exact fetchAurVersionRemote_na t1 _ st now
      · simp only [ne_eq, hne, not_false_eq_true, if_true, ite_true]
        intro _
        trivial
    | none => exact fetchAurVersionRemote_na t1 _ st now

/-- Witness for C10 at concrete inputs: a 404 response, a payload without a
version, and a thrown request all yield `'N/A'` and leave the cache as it
was. -/
theorem aur_failure_not_cached_witness :
    (fetchAurPackageVersion (Except.error ()) "eigenwallet-bin" emptyStore 0).1 = "N/A" ∧
    (fetchAurPackageVersion (Except.ok ⟨404, Except.error ()⟩)
      "eigenwallet-bin" emptyStore 0).1 = "N/A" ∧
    (fetchAurPackageVersion (Except.ok ⟨200, Except.ok none⟩)
      "eigenwallet-bin" emptyStore 0).1 = "N/A" ∧
    (fetchAurPackageVersion (Except.ok ⟨200, Except.ok none⟩)
      "eigenwallet-bin" emptyStore 0).2 = emptyStore := by
  refine ⟨?_, ?_, ?_, ?_⟩
  · exact aur_failure_not_cached.1 "eigenwallet-bin" 0
  · exact aur_failure_not_cached.2.1 ⟨404, Except.error ()⟩ "eigenwallet-bin" 0 (by decide)
  · exact aur_failure_not_cached.2.2.1 ⟨200, Except.ok none⟩ "eigenwallet-bin" 0
      (by decide) rfl
  · exact aur_failure_not_cached.2.2.2.2 (Except.ok ⟨200, Except.ok none⟩)
      "eigenwallet-bin" emptyStore 0
      (aur_failure_not_cached.2.2.1 ⟨200, Except.ok none⟩ "eigenwallet-bin" 0
        (by decide) rfl)

/-- Lemma: `fixedDigits` always renders exactly `d` characters. -/
theorem fixedDigits_length : ∀ (d n : ℕ), (fixedDigits n d).length = d := by
  intro d
  induction d with
  | zero => intro n; rfl
  | succ d ih =>
    intro n
    unfold fixedDigits
    rw [String.length_append, ih (n / 10)]
    rfl

/-- Every character rendered by `fixedDigits` is a decimal digit, never a
point. -/
theorem fixedDigits_no_dot :
    ∀ (d n : ℕ), ∀ c ∈ (fixedDigits n d).data, c ≠ '.' := by
  intro d
  induction d with
  | zero => intro n c hc; cases hc
  | succ d ih =>
    intro n c hc
    unfold fixedDigits at hc
    rw [String.data_append] at hc
    rcases List.mem_append.1 hc with h | h
    · exact ih (n / 10) c h
    · have hm : n % 10 < 10 := by omega
      rcases List.mem_singleton.1 h with rfl
      unfold digitChar
      set m := n % 10 with hmeq
      interval_cases m <;> decide

/-- Lemma: `takeWhile` consumes exactly a prefix all of whose elements satisfy the
predicate when the next element fails it. -/
theorem takeWhile_append_stop {α : Type} (p : α → Bool) :
    ∀ (l1 : List α) (c : α) (l2 : List α),
      (∀ x ∈ l1, p x = true) → p c = false →
      List.takeWhile p (l1 ++ c :: l2) = l1 := by
  intro l1
  induction l1 with
  | nil =>
    intro c l2 _ hc
    simp [List.takeWhile, hc]
  | cons a l ih =>
    intro c l2 hall hc
    have ha : p a = true := hall a (List.mem_cons_self a l)
    simp only [List.cons_append, List.takeWhile, ha]
    simp only [List.append_eq]
    rw [ih c l2 (fun x hx => hall x (List.mem_cons_of_mem a hx)) hc]

/-- The decimal places of `intPart ++ "." ++ frac` are exactly the characters
of `frac`, provided `frac` contains no point. -/
theorem decimalsAfterPoint_append (x f : String)
    (hf : ∀ c ∈ f.data, c ≠ '.') :
    decimalsAfterPoint (x ++ "." ++ f) = f.length := by
  unfold decimalsAfterPoint
  rw [String.data_append, String.data_append]
  have hdot : ("." : String).data = ['.'] := rfl
  rw [hdot]
  rw [List.append_assoc, List.reverse_append]
  rw [show (['.'] ++ f.data).reverse = f.data.reverse ++ ['.'] by
    rw [List.reverse_append]; rfl]
  rw [List.append_assoc, List.singleton_append]
  rw [takeWhile_append_stop _ f.data.reverse '.' x.data.reverse
    (fun c hc => by
      simp only [decide_eq_true_eq]
      exact hf c (List.mem_reverse.1 hc))
    (by decide)]
  rw [List.length_reverse]
  rfl

/-- Lemma: `toFixed` always renders exactly `digits` decimal places. -/
theorem decimalsAfterPoint_toFixed (q : ℚ) (digits : ℕ) (hd : 0 < digits) :
    decimalsAfterPoint (toFixed q digits) = digits := by
  unfold toFixed renderFixed
  have hne : ¬(digits = 0) := by omega
  by_cases hneg : (⌊q * (10 : ℚ) ^ digits + 1 / 2⌋ : ℤ) < 0
  · rw [if_pos hneg, if_neg hne]
    rw [show ("-" : String) ++ (toString (⌊q * (10 : ℚ) ^ digits + 1 / 2⌋.natAbs / 10 ^ digits) ++ "." ++
        fixedDigits (⌊q * (10 : ℚ) ^ digits + 1 / 2⌋.natAbs % 10 ^ digits) digits) =
        ("-" ++ toString (⌊q * (10 : ℚ) ^ digits + 1 / 2⌋.natAbs / 10 ^ digits)) ++ "." ++
        fixedDigits (⌊q * (10 : ℚ) ^ digits + 1 / 2⌋.natAbs % 10 ^ digits) digits from by
      rw [String.append_assoc, String.append_assoc]
      rfl]
    rw [decimalsAfterPoint_append _ _ (fixedDigits_no_dot digits _)]
    exact fixedDigits_length digits _
  · rw [if_neg hneg, if_neg hne]
    rw [decimalsAfterPoint_append _ _ (fixedDigits_no_dot digits _)]
    exact fixedDigits_length digits _

/-- C8: `formatPrice(100000000)` is `"1.000000"`; `btcToXmr(100000000,
50000000)` is `"2.000"`; and `btcToXmr` renders exactly 1 decimal place when
the XMR amount `s / p` is at least 100, 2 when it is in `[10, 100)`, and 3
when it is below 10 (tiers stated equivalently as `100·p ≤ s` etc. for a
positive integer price). -/
theorem price_formatting :
    formatPrice 100000000 = "1.000000" ∧
    btcToXmr 100000000 50000000 = "2.000" ∧
    (∀ (s p : ℕ), 0 < p →
      (100 * p ≤ s → decimalsAfterPoint (btcToXmr (s : ℚ) (p : ℚ)) = 1) ∧
      (10 * p ≤ s ∧ s < 100 * p →
        decimalsAfterPoint (btcToXmr (s : ℚ) (p : ℚ)) = 2) ∧
      (s < 10 * p → decimalsAfterPoint (btcToXmr (s : ℚ) (p : ℚ)) = 3)) := by
  refine ⟨?_, ?_, ?_⟩
  · unfold formatPrice SATOSHIS_PER_BTC toFixed
    norm_num
    decide
  · unfold btcToXmr toFixed
    rw [show ((100000000 : ℚ) / 50000000 : ℚ) = 2 from by norm_num]
    rw [if_neg (by norm_num), if_neg (by norm_num)]
    norm_num
    decide
  · intro s p hp
    have hp' : (0 : ℚ) < (p : ℚ) := by exact_mod_cast hp
    refine ⟨?_, ?_, ?_⟩
    · intro h
      have h100 : (100 : ℚ) ≤ (s : ℚ) / (p : ℚ) := by
        rw [le_div_iff₀ hp']
        exact_mod_cast h
      unfold btcToXmr
      rw [if_pos h100]
      exact decimalsAfterPoint_toFixed _ 1 (by norm_num)
    · intro h
      have h10 : (10 : ℚ) ≤ (s : ℚ) / (p : ℚ) := by
        rw [le_div_iff₀ hp']
        exact_mod_cast h.1
      have hn100 : ¬((100 : ℚ) ≤ (s : ℚ) / (p : ℚ)) := by
        rw [not_le, div_lt_iff₀ hp']
        exact_mod_cast h.2
      unfold btcToXmr
      rw [if_neg hn100, if_pos h10]
      exact decimalsAfterPoint_toFixed _ 2 (by norm_num)
    · intro h
      have hn10 : ¬((10 : ℚ) ≤ (s : ℚ) / (p : ℚ)) := by
        rw [not_le, div_lt_iff₀ hp']
        exact_mod_cast h
      have hn100 : ¬((100 : ℚ) ≤ (s : ℚ) / (p : ℚ)) := by
        rw [not_le, div_lt_iff₀ hp']
        calc (s : ℚ) < (10 : ℚ) * (p : ℚ) := by exact_mod_cast h
        _ ≤ (100 : ℚ) * (p : ℚ) := by nlinarith
      unfold btcToXmr
      rw [if_neg hn100, if_neg hn10]
      exact decimalsAfterPoint_toFixed _ 3 (by norm_num)

/-- Witness for C8's tier clauses at concrete amounts: 100 XMR, 10 XMR and
5 XMR rendered with 1, 2 and 3 decimal places respectively. -/
theorem price_formatting_witness :
    decimalsAfterPoint (btcToXmr (((100 : ℕ)) : ℚ) (((1 : ℕ)) : ℚ)) = 1 ∧
    decimalsAfterPoint (btcToXmr (((10 : ℕ)) : ℚ) (((1 : ℕ)) : ℚ)) = 2 ∧
    decimalsAfterPoint (btcToXmr (((5 : ℕ)) : ℚ) (((1 : ℕ)) : ℚ)) = 3 :=
  ⟨(price_formatting.2.2 100 1 (by decide)).1 (by decide),
   (price_formatting.2.2 10 1 (by decide)).2.1 (by decide),
   (price_formatting.2.2 5 1 (by decide)).2.2 (by decide)⟩

end VisionNG
